import Mathlib

/-!
Verification of the Pipal `Problem.hh` header (namespace `Pipal`): the abstract
`Problem` contract and the `ProblemWrapper` adapter that stores six
`std::function` handles and delegates each evaluation operation to the
correspondingly named stored handle.

Modelling conventions:
* An Eigen fixed-size vector `Eigen::Vector<Real, N>` is embedded as
  `Fin N → Real`, a fixed-size matrix `Eigen::Matrix<Real, M, N>` as
  `Fin M → Fin N → Real`.
* A `std::function<Sig>` value is embedded as `Option Sig`: `none` is the
  empty (default-constructed / `nullptr`-initialized) callable, `some f` is a
  callable with target `f`.  Invoking an empty `std::function` throws
  `std::bad_function_call`; this is embedded as `Except.error
  EvalError.badFunctionCall`.
* Each `const`-qualified evaluation method of `ProblemWrapper` is embedded in
  state-passing style, returning a pair (result, post-state).  The C++ bodies
  assign no member, so the post-state is the receiver itself.
* Since C++ overloads the same member name for getter / setter / evaluation,
  the Lean embedding distinguishes them with the suffixes `_get`, `_set`, and
  `_evalS`.
-/

set_option autoImplicit false

namespace Pipal

/-- `Eigen::Vector<Real, N>`: the primal variable vector type. -/
def VectorN (Real : Type) (N : Nat) : Type := Fin N → Real

/-- `Eigen::Vector<Real, M>`: the dual variable / constraints vector type. -/
def VectorM (Real : Type) (M : Nat) : Type := Fin M → Real

/-- `Eigen::Matrix<Real, N, N>`: the Hessian matrix type. -/
def MatrixH (Real : Type) (N : Nat) : Type := Fin N → Fin N → Real

/-- `Eigen::Matrix<Real, M, N>`: the constraints Jacobian matrix type
(`M` rows, `N` columns). -/
def MatrixJ (Real : Type) (M N : Nat) : Type := Fin M → Fin N → Real

/-- Eigen's compile-time row count of `MatrixJ`: `RowsAtCompileTime = M`,
a property of the type itself, fixed when the problem type is defined. -/
def MatrixJ.rowsAtCompileTime (_Real : Type) (M _N : Nat) : Nat := M

/-- Eigen's compile-time column count of `MatrixJ`: `ColsAtCompileTime = N`. -/
def MatrixJ.colsAtCompileTime (_Real : Type) (_M N : Nat) : Nat := N

/-- `using ObjectiveFunc = std::function<Real(VectorN const &)>` (the target
signature; the nullable `std::function` wrapper itself is `Option` of this). -/
def ObjectiveFunc (Real : Type) (N : Nat) : Type := VectorN Real N → Real

/-- `using ObjectiveGradientFunc = std::function<VectorN(VectorN const &)>`. -/
def ObjectiveGradientFunc (Real : Type) (N : Nat) : Type :=
  VectorN Real N → VectorN Real N

/-- `using ObjectiveHessianFunc = std::function<MatrixH(VectorN const &)>`. -/
def ObjectiveHessianFunc (Real : Type) (N : Nat) : Type :=
  VectorN Real N → MatrixH Real N

/-- `using ConstraintsFunc = std::function<VectorM(VectorN const &)>`. -/
def ConstraintsFunc (Real : Type) (N M : Nat) : Type :=
  VectorN Real N → VectorM Real M

/-- `using ConstraintsJacobianFunc =
std::function<MatrixJ(VectorN const &, VectorM const &)>`. -/
def ConstraintsJacobianFunc (Real : Type) (N M : Nat) : Type :=
  VectorN Real N → VectorM Real M → MatrixJ Real M N

/-- `using LagrangianHessianFunc =
std::function<MatrixH(VectorN const &, VectorM const &)>`. -/
def LagrangianHessianFunc (Real : Type) (N M : Nat) : Type :=
  VectorN Real N → VectorM Real M → MatrixH Real N

/-- The runtime failure of invoking an empty `std::function`:
`std::bad_function_call`, thrown at the point of the call. -/
inductive EvalError where
  | badFunctionCall
deriving DecidableEq

/-- The state of a `Pipal::ProblemWrapper<Real, N, M>` instance: its six
`std::function` members, each default-initialized to `nullptr` (`none`). -/
structure ProblemWrapper (Real : Type) (N M : Nat) where
  m_objective            : Option (ObjectiveFunc Real N)
  m_objective_gradient   : Option (ObjectiveGradientFunc Real N)
  m_objective_hessian    : Option (ObjectiveHessianFunc Real N)
  m_constraints          : Option (ConstraintsFunc Real N M)
  m_constraints_jacobian : Option (ConstraintsJacobianFunc Real N M)
  m_lagrangian_hessian   : Option (LagrangianHessianFunc Real N M)

namespace ProblemWrapper

variable {Real : Type} {N M : Nat}

/-- The five-handle constructor (without the Hessian of the objective): the
member initializer list sets the five supplied handles; `m_objective_hessian`
keeps its default member initializer `nullptr`. -/
def mk5 (objective : Option (ObjectiveFunc Real N))
    (objective_gradient : Option (ObjectiveGradientFunc Real N))
    (constraints : Option (ConstraintsFunc Real N M))
    (constraints_jacobian : Option (ConstraintsJacobianFunc Real N M))
    (lagrangian_hessian : Option (LagrangianHessianFunc Real N M)) :
    ProblemWrapper Real N M :=
  { m_objective := objective
    m_objective_gradient := objective_gradient
    m_objective_hessian := none
    m_constraints := constraints
    m_constraints_jacobian := constraints_jacobian
    m_lagrangian_hessian := lagrangian_hessian }

/-- The six-handle constructor (with the Hessian of the objective). -/
def mk6 (objective : Option (ObjectiveFunc Real N))
    (objective_gradient : Option (ObjectiveGradientFunc Real N))
    (objective_hessian : Option (ObjectiveHessianFunc Real N))
    (constraints : Option (ConstraintsFunc Real N M))
    (constraints_jacobian : Option (ConstraintsJacobianFunc Real N M))
    (lagrangian_hessian : Option (LagrangianHessianFunc Real N M)) :
    ProblemWrapper Real N M :=
  { m_objective := objective
    m_objective_gradient := objective_gradient
    m_objective_hessian := objective_hessian
    m_constraints := constraints
    m_constraints_jacobian := constraints_jacobian
    m_lagrangian_hessian := lagrangian_hessian }

/-- Getter `ObjectiveFunc objective() const`: returns the stored handle. -/
def objective_get (p : ProblemWrapper Real N M) : Option (ObjectiveFunc Real N) :=
  p.m_objective

/-- Setter `void objective(ObjectiveFunc const &)`: replaces the stored handle. -/
def objective_set (p : ProblemWrapper Real N M)
    (objective : Option (ObjectiveFunc Real N)) : ProblemWrapper Real N M :=
  { p with m_objective := objective }

/-- Getter `ObjectiveGradientFunc objective_gradient() const`. -/
def objective_gradient_get (p : ProblemWrapper Real N M) :
    Option (ObjectiveGradientFunc Real N) :=
  p.m_objective_gradient

/-- Setter `void objective_gradient(ObjectiveGradientFunc const &)`. -/
def objective_gradient_set (p : ProblemWrapper Real N M)
    (objective_gradient : Option (ObjectiveGradientFunc Real N)) :
    ProblemWrapper Real N M :=
  { p with m_objective_gradient := objective_gradient }

/-- Getter `ObjectiveHessianFunc objective_hessian() const`. -/
def objective_hessian_get (p : ProblemWrapper Real N M) :
    Option (ObjectiveHessianFunc Real N) :=
  p.m_objective_hessian

/-- Setter `void objective_hessian(ObjectiveHessianFunc const &)`. -/
def objective_hessian_set (p : ProblemWrapper Real N M)
    (objective_hessian : Option (ObjectiveHessianFunc Real N)) :
    ProblemWrapper Real N M :=
  { p with m_objective_hessian := objective_hessian }

/-- Getter `ConstraintsFunc constraints() const`. -/
def constraints_get (p : ProblemWrapper Real N M) :
    Option (ConstraintsFunc Real N M) :=
  p.m_constraints

/-- Setter `void constraints(ConstraintsFunc const &)`. -/
def constraints_set (p : ProblemWrapper Real N M)
    (constraints : Option (ConstraintsFunc Real N M)) : ProblemWrapper Real N M :=
  { p with m_constraints := constraints }

/-- Getter `ConstraintsJacobianFunc constraints_jacobian() const`. -/
def constraints_jacobian_get (p : ProblemWrapper Real N M) :
    Option (ConstraintsJacobianFunc Real N M) :=
  p.m_constraints_jacobian

/-- Setter `void constraints_jacobian(ConstraintsJacobianFunc const &)`. -/
def constraints_jacobian_set (p : ProblemWrapper Real N M)
    (constraints_jacobian : Option (ConstraintsJacobianFunc Real N M)) :
    ProblemWrapper Real N M :=
  { p with m_constraints_jacobian := constraints_jacobian }

/-- Getter `LagrangianHessianFunc lagrangian_hessian() const`. -/
def lagrangian_hessian_get (p : ProblemWrapper Real N M) :
    Option (LagrangianHessianFunc Real N M) :=
  p.m_lagrangian_hessian

/-- Setter `void lagrangian_hessian(LagrangianHessianFunc const &)`. -/
def lagrangian_hessian_set (p : ProblemWrapper Real N M)
    (lagrangian_hessian : Option (LagrangianHessianFunc Real N M)) :
    ProblemWrapper Real N M :=
  { p with m_lagrangian_hessian := lagrangian_hessian }

/-- Evaluation override `Real objective(VectorN const & x) const`:
`return this->m_objective(x);`.  Invoking the stored `std::function` calls its
target when set and throws `std::bad_function_call` when empty; the `const`
method assigns no member, so the post-state is the receiver unchanged. -/
def objective_evalS (p : ProblemWrapper Real N M) (x : VectorN Real N) :
    Except EvalError Real × ProblemWrapper Real N M :=
  (match p.m_objective with
    | some f => Except.ok (f x)
    | none => Except.error EvalError.badFunctionCall, p)

/-- Evaluation override `VectorN objective_gradient(VectorN const & x) const`:
`return this->m_objective_gradient(x);`. -/
def objective_gradient_evalS (p : ProblemWrapper Real N M) (x : VectorN Real N) :
    Except EvalError (VectorN Real N) × ProblemWrapper Real N M :=
  (match p.m_objective_gradient with
    | some f => Except.ok (f x)
    | none => Except.error EvalError.badFunctionCall, p)

/-- Evaluation override `MatrixH objective_hessian(VectorN const & x) const`:
`return this->m_objective_hessian(x);`. -/
def objective_hessian_evalS (p : ProblemWrapper Real N M) (x : VectorN Real N) :
    Except EvalError (MatrixH Real N) × ProblemWrapper Real N M :=
  (match p.m_objective_hessian with
    | some f => Except.ok (f x)
    | none => Except.error EvalError.badFunctionCall, p)

/-- Evaluation override `VectorM constraints(VectorN const & x) const`:
`return this->m_constraints(x);`. -/
def constraints_evalS (p : ProblemWrapper Real N M) (x : VectorN Real N) :
    Except EvalError (VectorM Real M) × ProblemWrapper Real N M :=
  (match p.m_constraints with
    | some f => Except.ok (f x)
    | none => Except.error EvalError.badFunctionCall, p)

/-- Evaluation override
`MatrixJ constraints_jacobian(VectorN const & x, VectorM const & z) const`:
`return this->m_constraints_jacobian(x, z);`. -/
def constraints_jacobian_evalS (p : ProblemWrapper Real N M)
    (x : VectorN Real N) (z : VectorM Real M) :
    Except EvalError (MatrixJ Real M N) × ProblemWrapper Real N M :=
  (match p.m_constraints_jacobian with
    | some f => Except.ok (f x z)
    | none => Except.error EvalError.badFunctionCall, p)

/-- Evaluation override
`MatrixH lagrangian_hessian(VectorN const & x, VectorM const & z) const`:
`return this->m_lagrangian_hessian(x, z);`. -/
def lagrangian_hessian_evalS (p : ProblemWrapper Real N M)
    (x : VectorN Real N) (z : VectorM Real M) :
    Except EvalError (MatrixH Real N) × ProblemWrapper Real N M :=
  (match p.m_lagrangian_hessian with
    | some f => Except.ok (f x z)
    | none => Except.error EvalError.badFunctionCall, p)

/-- The defaulted copy constructor `ProblemWrapper(const ProblemWrapper &) =
default`: memberwise copy of the six stored handles into a fresh instance. -/
def copy (p : ProblemWrapper Real N M) : ProblemWrapper Real N M :=
  { m_objective := p.m_objective
    m_objective_gradient := p.m_objective_gradient
    m_objective_hessian := p.m_objective_hessian
    m_constraints := p.m_constraints
    m_constraints_jacobian := p.m_constraints_jacobian
    m_lagrangian_hessian := p.m_lagrangian_hessian }

end ProblemWrapper

/-- The C++ scalar types relevant to `std::is_floating_point` over the
candidate template arguments for `Real`. -/
inductive CppScalarType where
  | float
  | double
  | longDouble
  | boolType
  | charType
  | intType
  | longType
  | unsignedType
deriving DecidableEq

/-- `std::is_floating_point<Real>::value`: true exactly for `float`, `double`
and `long double`. -/
def is_floating_point : CppScalarType → Bool
  | CppScalarType.float => true
  | CppScalarType.double => true
  | CppScalarType.longDouble => true
  | _ => false

/-- The three `static_assert`s guarding the definition of
`Pipal::Problem<Real, N, M>`: the class template (and hence
`ProblemWrapper`, which derives from it) can be instantiated exactly when
`std::is_floating_point<Real>::value`, `N > 0` and `M > 0`; a violation is a
compile-time (definition-time) failure.  `N` and `M` are `Integer` template
parameters, hence modelled as `Int`. -/
def problem_instantiable (t : CppScalarType) (N M : Int) : Bool :=
  is_floating_point t && decide (0 < N) && decide (0 < M)

/-- The example scenario objective f(x) = x1^2 + x2^2 over exact arithmetic
(every value in the scenario is exactly representable in binary64, so the
double computations coincide with the rational ones). -/
def exampleObjective : ObjectiveFunc ℚ 2 := fun x => x 0 * x 0 + x 1 * x 1

/-- The example scenario gradient (2 x1, 2 x2). -/
def exampleObjectiveGradient : ObjectiveGradientFunc ℚ 2 := fun x i => 2 * x i

/-- The example scenario constraints g(x) = (x1 - 1, x2 - 1). -/
def exampleConstraints : ConstraintsFunc ℚ 2 2 := fun x i => x i - 1

/-- The example scenario constraints Jacobian: the 2x2 identity matrix,
independent of the dual vector. -/
def exampleConstraintsJacobian : ConstraintsJacobianFunc ℚ 2 2 :=
  fun _x _z i j => if i = j then 1 else 0

/-- The example scenario Lagrangian Hessian: 2 times the 2x2 identity,
independent of the dual vector. -/
def exampleLagrangianHessian : LagrangianHessianFunc ℚ 2 2 :=
  fun _x _z i j => if i = j then 2 else 0

/-- The example scenario problem: the five-handle construction with N = 2,
M = 2 and the five example handles. -/
def exampleProblem : ProblemWrapper ℚ 2 2 :=
  ProblemWrapper.mk5 (some exampleObjective) (some exampleObjectiveGradient)
    (some exampleConstraints) (some exampleConstraintsJacobian)
    (some exampleLagrangianHessian)

/-- The evaluation point x = (1, 1) of the example scenario. -/
def onesVec : VectorN ℚ 2 := fun _ => 1

/-- A concrete dual vector of the example scenario. -/
def dualOnes : VectorM ℚ 2 := fun _ => 1

/-- C1: Pure delegation.  For every ProblemWrapper constructed with all six
function handles, each of the six evaluation operations returns exactly the
value that the corresponding stored handle returns for the same input, with
no transformation, caching, or validation applied. -/
theorem c1_pure_delegation {Real : Type} {N M : Nat}
    (f1 : ObjectiveFunc Real N) (f2 : ObjectiveGradientFunc Real N)
    (f3 : ObjectiveHessianFunc Real N) (f4 : ConstraintsFunc Real N M)
    (f5 : ConstraintsJacobianFunc Real N M) (f6 : LagrangianHessianFunc Real N M)
    (x : VectorN Real N) (z : VectorM Real M) :
    ((ProblemWrapper.mk6 (some f1) (some f2) (some f3) (some f4) (some f5)
        (some f6)).objective_evalS x).1 = Except.ok (f1 x) ∧
    ((ProblemWrapper.mk6 (some f1) (some f2) (some f3) (some f4) (some f5)
        (some f6)).objective_gradient_evalS x).1 = Except.ok (f2 x) ∧
    ((ProblemWrapper.mk6 (some f1) (some f2) (some f3) (some f4) (some f5)
        (some f6)).objective_hessian_evalS x).1 = Except.ok (f3 x) ∧
    ((ProblemWrapper.mk6 (some f1) (some f2) (some f3) (some f4) (some f5)
        (some f6)).constraints_evalS x).1 = Except.ok (f4 x) ∧
    ((ProblemWrapper.mk6 (some f1) (some f2) (some f3) (some f4) (some f5)
        (some f6)).constraints_jacobian_evalS x z).1 = Except.ok (f5 x z) ∧
    ((ProblemWrapper.mk6 (some f1) (some f2) (some f3) (some f4) (some f5)
        (some f6)).lagrangian_hessian_evalS x z).1 = Except.ok (f6 x z) :=
  ⟨rfl, rfl, rfl, rfl, rfl, rfl⟩

/-- C2 counterexample: the five-handle constructor accepts empty
`std::function` arguments (they are `std::function` values, which may be
null); on such a wrapper the `objective` evaluation also fails with
`std::bad_function_call`, so it is not the case that, for every wrapper
constructed via the five-handle form, only `objective_hessian` can fail
for the unset-handle reason. -/
theorem c2_counterexample :
    ((ProblemWrapper.mk5 none none none none none :
        ProblemWrapper ℚ 1 1).objective_evalS (fun _ => 0)).1 =
      Except.error EvalError.badFunctionCall :=
  rfl

/-- C2 amended: for every ProblemWrapper constructed via the five-handle
form, evaluating `objective_hessian` fails with the unset-handle error
(`std::bad_function_call`), never silently returning a default value; and
whenever the five supplied handles are themselves set (non-empty), none of
the other five evaluation operations fails for this reason. -/
theorem c2_unset_hessian_fails {Real : Type} {N M : Nat}
    (a : Option (ObjectiveFunc Real N)) (b : Option (ObjectiveGradientFunc Real N))
    (c : Option (ConstraintsFunc Real N M))
    (d : Option (ConstraintsJacobianFunc Real N M))
    (e : Option (LagrangianHessianFunc Real N M))
    (f1 : ObjectiveFunc Real N) (f2 : ObjectiveGradientFunc Real N)
    (f4 : ConstraintsFunc Real N M) (f5 : ConstraintsJacobianFunc Real N M)
    (f6 : LagrangianHessianFunc Real N M)
    (x : VectorN Real N) (z : VectorM Real M) :
    ((ProblemWrapper.mk5 a b c d e).objective_hessian_evalS x).1 =
      Except.error EvalError.badFunctionCall ∧
    ((ProblemWrapper.mk5 (some f1) (some f2) (some f4) (some f5)
        (some f6)).objective_evalS x).1 = Except.ok (f1 x) ∧
    ((ProblemWrapper.mk5 (some f1) (some f2) (some f4) (some f5)
        (some f6)).objective_gradient_evalS x).1 = Except.ok (f2 x) ∧
    ((ProblemWrapper.mk5 (some f1) (some f2) (some f4) (some f5)
        (some f6)).constraints_evalS x).1 = Except.ok (f4 x) ∧
    ((ProblemWrapper.mk5 (some f1) (some f2) (some f4) (some f5)
        (some f6)).constraints_jacobian_evalS x z).1 = Except.ok (f5 x z) ∧
    ((ProblemWrapper.mk5 (some f1) (some f2) (some f4) (some f5)
        (some f6)).lagrangian_hessian_evalS x z).1 = Except.ok (f6 x z) :=
  ⟨rfl, rfl, rfl, rfl, rfl, rfl⟩

/-- C3: Setter/getter round-trip.  For each of the six operations, after
calling the setter with a handle H, the getter returns exactly H,
independently per operation and for every handle value H (including the
empty handle). -/
theorem c3_setter_getter_roundtrip {Real : Type} {N M : Nat}
    (p : ProblemWrapper Real N M)
    (H1 : Option (ObjectiveFunc Real N)) (H2 : Option (ObjectiveGradientFunc Real N))
    (H3 : Option (ObjectiveHessianFunc Real N)) (H4 : Option (ConstraintsFunc Real N M))
    (H5 : Option (ConstraintsJacobianFunc Real N M))
    (H6 : Option (LagrangianHessianFunc Real N M)) :
    (p.objective_set H1).objective_get = H1 ∧
    (p.objective_gradient_set H2).objective_gradient_get = H2 ∧
    (p.objective_hessian_set H3).objective_hessian_get = H3 ∧
    (p.constraints_set H4).constraints_get = H4 ∧
    (p.constraints_jacobian_set H5).constraints_jacobian_get = H5 ∧
    (p.lagrangian_hessian_set H6).lagrangian_hessian_get = H6 :=
  ⟨rfl, rfl, rfl, rfl, rfl, rfl⟩

/-- C4: Frame property of handle replacement.  For every ProblemWrapper and
every operation X, calling the setter for X stores the new handle for X and
leaves the stored handles of the other five operations unchanged, hence the
subsequent evaluation results of the other five operations unchanged. -/
theorem c4_setter_frame {Real : Type} {N M : Nat}
    (p : ProblemWrapper Real N M)
    (G1 : Option (ObjectiveFunc Real N)) (G2 : Option (ObjectiveGradientFunc Real N))
    (G3 : Option (ObjectiveHessianFunc Real N)) (G4 : Option (ConstraintsFunc Real N M))
    (G5 : Option (ConstraintsJacobianFunc Real N M))
    (G6 : Option (LagrangianHessianFunc Real N M))
    (x : VectorN Real N) (z : VectorM Real M) :
    ((p.objective_set G1).m_objective = G1 ∧
     (p.objective_set G1).m_objective_gradient = p.m_objective_gradient ∧
     (p.objective_set G1).m_objective_hessian = p.m_objective_hessian ∧
     (p.objective_set G1).m_constraints = p.m_constraints ∧
     (p.objective_set G1).m_constraints_jacobian = p.m_constraints_jacobian ∧
     (p.objective_set G1).m_lagrangian_hessian = p.m_lagrangian_hessian ∧
     ((p.objective_set G1).objective_gradient_evalS x).1 = (p.objective_gradient_evalS x).1 ∧
     ((p.objective_set G1).objective_hessian_evalS x).1 = (p.objective_hessian_evalS x).1 ∧
     ((p.objective_set G1).constraints_evalS x).1 = (p.constraints_evalS x).1 ∧
     ((p.objective_set G1).constraints_jacobian_evalS x z).1 = (p.constraints_jacobian_evalS x z).1 ∧
     ((p.objective_set G1).lagrangian_hessian_evalS x z).1 = (p.lagrangian_hessian_evalS x z).1) ∧
    ((p.objective_gradient_set G2).m_objective_gradient = G2 ∧
     (p.objective_gradient_set G2).m_objective = p.m_objective ∧
     (p.objective_gradient_set G2).m_objective_hessian = p.m_objective_hessian ∧
     (p.objective_gradient_set G2).m_constraints = p.m_constraints ∧
     (p.objective_gradient_set G2).m_constraints_jacobian = p.m_constraints_jacobian ∧
     (p.objective_gradient_set G2).m_lagrangian_hessian = p.m_lagrangian_hessian ∧
     ((p.objective_gradient_set G2).objective_evalS x).1 = (p.objective_evalS x).1 ∧
     ((p.objective_gradient_set G2).objective_hessian_evalS x).1 = (p.objective_hessian_evalS x).1 ∧
     ((p.objective_gradient_set G2).constraints_evalS x).1 = (p.constraints_evalS x).1 ∧
     ((p.objective_gradient_set G2).constraints_jacobian_evalS x z).1 = (p.constraints_jacobian_evalS x z).1 ∧
     ((p.objective_gradient_set G2).lagrangian_hessian_evalS x z).1 = (p.lagrangian_hessian_evalS x z).1) ∧
    ((p.objective_hessian_set G3).m_objective_hessian = G3 ∧
     (p.objective_hessian_set G3).m_objective = p.m_objective ∧
     (p.objective_hessian_set G3).m_objective_gradient = p.m_objective_gradient ∧
     (p.objective_hessian_set G3).m_constraints = p.m_constraints ∧
     (p.objective_hessian_set G3).m_constraints_jacobian = p.m_constraints_jacobian ∧
     (p.objective_hessian_set G3).m_lagrangian_hessian = p.m_lagrangian_hessian ∧
     ((p.objective_hessian_set G3).objective_evalS x).1 = (p.objective_evalS x).1 ∧
     ((p.objective_hessian_set G3).objective_gradient_evalS x).1 = (p.objective_gradient_evalS x).1 ∧
     ((p.objective_hessian_set G3).constraints_evalS x).1 = (p.constraints_evalS x).1 ∧
     ((p.objective_hessian_set G3).constraints_jacobian_evalS x z).1 = (p.constraints_jacobian_evalS x z).1 ∧
     ((p.objective_hessian_set G3).lagrangian_hessian_evalS x z).1 = (p.lagrangian_hessian_evalS x z).1) ∧
    ((p.constraints_set G4).m_constraints = G4 ∧
     (p.constraints_set G4).m_objective = p.m_objective ∧
     (p.constraints_set G4).m_objective_gradient = p.m_objective_gradient ∧
     (p.constraints_set G4).m_objective_hessian = p.m_objective_hessian ∧
     (p.constraints_set G4).m_constraints_jacobian = p.m_constraints_jacobian ∧
     (p.constraints_set G4).m_lagrangian_hessian = p.m_lagrangian_hessian ∧
     ((p.constraints_set G4).objective_evalS x).1 = (p.objective_evalS x).1 ∧
     ((p.constraints_set G4).objective_gradient_evalS x).1 = (p.objective_gradient_evalS x).1 ∧
     ((p.constraints_set G4).objective_hessian_evalS x).1 = (p.objective_hessian_evalS x).1 ∧
     ((p.constraints_set G4).constraints_jacobian_evalS x z).1 = (p.constraints_jacobian_evalS x z).1 ∧
     ((p.constraints_set G4).lagrangian_hessian_evalS x z).1 = (p.lagrangian_hessian_evalS x z).1) ∧
    ((p.constraints_jacobian_set G5).m_constraints_jacobian = G5 ∧
     (p.constraints_jacobian_set G5).m_objective = p.m_objective ∧
     (p.constraints_jacobian_set G5).m_objective_gradient = p.m_objective_gradient ∧
     (p.constraints_jacobian_set G5).m_objective_hessian = p.m_objective_hessian ∧
     (p.constraints_jacobian_set G5).m_constraints = p.m_constraints ∧
     (p.constraints_jacobian_set G5).m_lagrangian_hessian = p.m_lagrangian_hessian ∧
     ((p.constraints_jacobian_set G5).objective_evalS x).1 = (p.objective_evalS x).1 ∧
     ((p.constraints_jacobian_set G5).objective_gradient_evalS x).1 = (p.objective_gradient_evalS x).1 ∧
     ((p.constraints_jacobian_set G5).objective_hessian_evalS x).1 = (p.objective_hessian_evalS x).1 ∧
     ((p.constraints_jacobian_set G5).constraints_evalS x).1 = (p.constraints_evalS x).1 ∧
     ((p.constraints_jacobian_set G5).lagrangian_hessian_evalS x z).1 = (p.lagrangian_hessian_evalS x z).1) ∧
    ((p.lagrangian_hessian_set G6).m_lagrangian_hessian = G6 ∧
     (p.lagrangian_hessian_set G6).m_objective = p.m_objective ∧
     (p.lagrangian_hessian_set G6).m_objective_gradient = p.m_objective_gradient ∧
     (p.lagrangian_hessian_set G6).m_objective_hessian = p.m_objective_hessian ∧
     (p.lagrangian_hessian_set G6).m_constraints = p.m_constraints ∧
     (p.lagrangian_hessian_set G6).m_constraints_jacobian = p.m_constraints_jacobian ∧
     ((p.lagrangian_hessian_set G6).objective_evalS x).1 = (p.objective_evalS x).1 ∧
     ((p.lagrangian_hessian_set G6).objective_gradient_evalS x).1 = (p.objective_gradient_evalS x).1 ∧
     ((p.lagrangian_hessian_set G6).objective_hessian_evalS x).1 = (p.objective_hessian_evalS x).1 ∧
     ((p.lagrangian_hessian_set G6).constraints_evalS x).1 = (p.constraints_evalS x).1 ∧
     ((p.lagrangian_hessian_set G6).constraints_jacobian_evalS x z).1 = (p.constraints_jacobian_evalS x z).1) := by
  refine ⟨?_, ?_, ?_, ?_, ?_, ?_⟩ <;>
    exact ⟨rfl, rfl, rfl, rfl, rfl, rfl, rfl, rfl, rfl, rfl, rfl⟩

/-- C5: Definition-time validation.  The Problem (and hence ProblemWrapper)
class template can be instantiated exactly when the numeric type parameter
is a floating-point type (`float`, `double` or `long double`) and the
dimension parameters N and M are each positive; any violation trips a
`static_assert`, i.e. a compile-time (definition-time) failure. -/
theorem c5_definition_time_validation (t : CppScalarType) (N M : Int) :
    problem_instantiable t N M = true ↔
      ((t = CppScalarType.float ∨ t = CppScalarType.double ∨
          t = CppScalarType.longDouble) ∧ 0 < N ∧ 0 < M) := by
  cases t <;> simp [problem_instantiable, is_floating_point, and_assoc]

/-- C6: Example-scenario correctness.  For the wrapper with N = 2, M = 2 and
the example handles (objective x1^2 + x2^2, gradient (2 x1, 2 x2),
constraints (x1 - 1, x2 - 1), Jacobian the identity, Lagrangian Hessian
2 times the identity), evaluating at x = (1, 1) yields objective 2,
gradient (2, 2), constraints (0, 0), constraints Jacobian the 2x2 identity
for every dual vector, and Lagrangian Hessian 2 times the 2x2 identity.
(All values in the scenario are exact in binary64, so the rational model
coincides with the double computation.) -/
theorem c6_example_scenario (z : VectorM ℚ 2) :
    (exampleProblem.objective_evalS onesVec).1 = Except.ok 2 ∧
    (∃ g, (exampleProblem.objective_gradient_evalS onesVec).1 = Except.ok g ∧
      g 0 = 2 ∧ g 1 = 2) ∧
    (∃ c, (exampleProblem.constraints_evalS onesVec).1 = Except.ok c ∧
      c 0 = 0 ∧ c 1 = 0) ∧
    (∃ j, (exampleProblem.constraints_jacobian_evalS onesVec z).1 = Except.ok j ∧
      j 0 0 = 1 ∧ j 0 1 = 0 ∧ j 1 0 = 0 ∧ j 1 1 = 1) ∧
    (∃ w, (exampleProblem.lagrangian_hessian_evalS onesVec z).1 = Except.ok w ∧
      w 0 0 = 2 ∧ w 0 1 = 0 ∧ w 1 0 = 0 ∧ w 1 1 = 2) := by
  refine ⟨?_, ⟨_, rfl, ?_, ?_⟩, ⟨_, rfl, ?_, ?_⟩, ⟨_, rfl, ?_, ?_, ?_, ?_⟩,
      ⟨_, rfl, ?_, ?_, ?_, ?_⟩⟩ <;>
    norm_num [exampleProblem, ProblemWrapper.mk5, ProblemWrapper.objective_evalS,
      exampleObjective, exampleObjectiveGradient, exampleConstraints,
      exampleConstraintsJacobian, exampleLagrangianHessian, onesVec]

/-- C7: Dimension consistency.  For the problem type instantiated with
N = 2 and M = 2, the Jacobian matrix type has compile-time shape 2 rows by
2 columns (M rows by N columns, fixed by the type, not checked per call),
`objective` accepts a length-2 primal vector and returns a single scalar,
and `constraints_jacobian` returns a value of that 2x2 matrix type. -/
theorem c7_dimension_consistency :
    MatrixJ.rowsAtCompileTime ℚ 2 2 = 2 ∧
    MatrixJ.colsAtCompileTime ℚ 2 2 = 2 ∧
    ∀ (f1 : ObjectiveFunc ℚ 2) (f2 : ObjectiveGradientFunc ℚ 2)
      (f3 : ObjectiveHessianFunc ℚ 2) (f4 : ConstraintsFunc ℚ 2 2)
      (f5 : ConstraintsJacobianFunc ℚ 2 2) (f6 : LagrangianHessianFunc ℚ 2 2)
      (x : VectorN ℚ 2) (z : VectorM ℚ 2),
      ((ProblemWrapper.mk6 (some f1) (some f2) (some f3) (some f4) (some f5)
          (some f6)).objective_evalS x).1 = Except.ok (f1 x) ∧
      ((ProblemWrapper.mk6 (some f1) (some f2) (some f3) (some f4) (some f5)
          (some f6)).constraints_jacobian_evalS x z).1 = Except.ok (f5 x z) :=
  ⟨rfl, rfl, fun _ _ _ _ _ _ _ _ => ⟨rfl, rfl⟩⟩

/-- C8: Evaluation statelessness.  Invoking any of the six evaluation
operations leaves the instance state (all six stored handles) unchanged,
and the result is determined purely by the operation's arguments and the
currently stored handles: two wrappers with equal stored handles give equal
evaluation results on equal arguments. -/
theorem c8_evaluation_statelessness {Real : Type} {N M : Nat}
    (p q : ProblemWrapper Real N M) (x : VectorN Real N) (z : VectorM Real M)
    (h1 : p.m_objective = q.m_objective)
    (h2 : p.m_objective_gradient = q.m_objective_gradient)
    (h3 : p.m_objective_hessian = q.m_objective_hessian)
    (h4 : p.m_constraints = q.m_constraints)
    (h5 : p.m_constraints_jacobian = q.m_constraints_jacobian)
    (h6 : p.m_lagrangian_hessian = q.m_lagrangian_hessian) :
    ((p.objective_evalS x).2 = p ∧
     (p.objective_gradient_evalS x).2 = p ∧
     (p.objective_hessian_evalS x).2 = p ∧
     (p.constraints_evalS x).2 = p ∧
     (p.constraints_jacobian_evalS x z).2 = p ∧
     (p.lagrangian_hessian_evalS x z).2 = p) ∧
    ((p.objective_evalS x).1 = (q.objective_evalS x).1 ∧
     (p.objective_gradient_evalS x).1 = (q.objective_gradient_evalS x).1 ∧
     (p.objective_hessian_evalS x).1 = (q.objective_hessian_evalS x).1 ∧
     (p.constraints_evalS x).1 = (q.constraints_evalS x).1 ∧
     (p.constraints_jacobian_evalS x z).1 = (q.constraints_jacobian_evalS x z).1 ∧
     (p.lagrangian_hessian_evalS x z).1 = (q.lagrangian_hessian_evalS x z).1) := by
  refine ⟨⟨rfl, rfl, rfl, rfl, rfl, rfl⟩, ?_, ?_, ?_, ?_, ?_, ?_⟩ <;>
    simp only [ProblemWrapper.objective_evalS, ProblemWrapper.objective_gradient_evalS,
      ProblemWrapper.objective_hessian_evalS, ProblemWrapper.constraints_evalS,
      ProblemWrapper.constraints_jacobian_evalS, ProblemWrapper.lagrangian_hessian_evalS,
      h1, h2, h3, h4, h5, h6]

/-- Witness for C8 at the example problem with x = (1, 1) and z = (1, 1),
discharging each equal-handles hypothesis by reflexivity. -/
theorem c8_evaluation_statelessness_witness :
    ((exampleProblem.objective_evalS onesVec).2 = exampleProblem ∧
     (exampleProblem.objective_gradient_evalS onesVec).2 = exampleProblem ∧
     (exampleProblem.objective_hessian_evalS onesVec).2 = exampleProblem ∧
     (exampleProblem.constraints_evalS onesVec).2 = exampleProblem ∧
     (exampleProblem.constraints_jacobian_evalS onesVec dualOnes).2 = exampleProblem ∧
     (exampleProblem.lagrangian_hessian_evalS onesVec dualOnes).2 = exampleProblem) ∧
    ((exampleProblem.objective_evalS onesVec).1 = (exampleProblem.objective_evalS onesVec).1 ∧
     (exampleProblem.objective_gradient_evalS onesVec).1 = (exampleProblem.objective_gradient_evalS onesVec).1 ∧
     (exampleProblem.objective_hessian_evalS onesVec).1 = (exampleProblem.objective_hessian_evalS onesVec).1 ∧
     (exampleProblem.constraints_evalS onesVec).1 = (exampleProblem.constraints_evalS onesVec).1 ∧
     (exampleProblem.constraints_jacobian_evalS onesVec dualOnes).1 = (exampleProblem.constraints_jacobian_evalS onesVec dualOnes).1 ∧
     (exampleProblem.lagrangian_hessian_evalS onesVec dualOnes).1 = (exampleProblem.lagrangian_hessian_evalS onesVec dualOnes).1) :=
  c8_evaluation_statelessness exampleProblem exampleProblem onesVec dualOnes
    rfl rfl rfl rfl rfl rfl

/-- C9: Getters never fail on unset handles.  The getter of any operation is
a total read of the stored handle; in particular the `objective_hessian`
getter after five-handle construction returns the empty/unset handle value
(the default `nullptr` member), and every getter simply returns the stored
handle, set or not. -/
theorem c9_getters_never_fail {Real : Type} {N M : Nat}
    (a : Option (ObjectiveFunc Real N)) (b : Option (ObjectiveGradientFunc Real N))
    (c : Option (ConstraintsFunc Real N M))
    (d : Option (ConstraintsJacobianFunc Real N M))
    (e : Option (LagrangianHessianFunc Real N M))
    (p : ProblemWrapper Real N M) :
    (ProblemWrapper.mk5 a b c d e).objective_hessian_get = none ∧
    p.objective_get = p.m_objective ∧
    p.objective_gradient_get = p.m_objective_gradient ∧
    p.objective_hessian_get = p.m_objective_hessian ∧
    p.constraints_get = p.m_constraints ∧
    p.constraints_jacobian_get = p.m_constraints_jacobian ∧
    p.lagrangian_hessian_get = p.m_lagrangian_hessian :=
  ⟨rfl, rfl, rfl, rfl, rfl, rfl, rfl⟩

/-- C10: Copy independence.  The defaulted copy constructor copies all six
stored handles memberwise, and replacing a handle on the copy via a setter
yields an instance holding the new handle while the original instance and
the copy's other five handles keep the original stored handles (handles are
owned per instance, never shared between instances). -/
theorem c10_copy_independence {Real : Type} {N M : Nat}
    (p : ProblemWrapper Real N M) (H : Option (ObjectiveFunc Real N)) :
    (p.copy.m_objective = p.m_objective ∧
     p.copy.m_objective_gradient = p.m_objective_gradient ∧
     p.copy.m_objective_hessian = p.m_objective_hessian ∧
     p.copy.m_constraints = p.m_constraints ∧
     p.copy.m_constraints_jacobian = p.m_constraints_jacobian ∧
     p.copy.m_lagrangian_hessian = p.m_lagrangian_hessian) ∧
    ((p.copy.objective_set H).objective_get = H ∧
     (p.copy.objective_set H).m_objective_gradient = p.m_objective_gradient ∧
     (p.copy.objective_set H).m_objective_hessian = p.m_objective_hessian ∧
     (p.copy.objective_set H).m_constraints = p.m_constraints ∧
     (p.copy.objective_set H).m_constraints_jacobian = p.m_constraints_jacobian ∧
     (p.copy.objective_set H).m_lagrangian_hessian = p.m_lagrangian_hessian) ∧
    (p.objective_get = p.m_objective ∧
     p.objective_gradient_get = p.m_objective_gradient ∧
     p.objective_hessian_get = p.m_objective_hessian ∧
     p.constraints_get = p.m_constraints ∧
     p.constraints_jacobian_get = p.m_constraints_jacobian ∧
     p.lagrangian_hessian_get = p.m_lagrangian_hessian) :=
  ⟨⟨rfl, rfl, rfl, rfl, rfl, rfl⟩, ⟨rfl, rfl, rfl, rfl, rfl, rfl⟩,
    ⟨rfl, rfl, rfl, rfl, rfl, rfl⟩⟩

end Pipal
